import Mathlib

/-!
Shallow embedding of the multimodal-translator repository
(src/languages.py, src/config.py, src/translate.py, src/stt.py,
src/tts.py, src/conversation.py).

The external services (Google speech recognition, deep_translator's
GoogleTranslator, gTTS) are modelled as oracle functions passed in as
parameters.  The file system holding temporary audio files is modelled
as an association list from paths to byte contents together with a
fresh-name counter (mirroring tempfile.NamedTemporaryFile).  Exceptions
raised by UI / playback code inside the `try` block of `_process_turn`
are modelled by an explicit interruption point (`ExcPoint`); the
`finally` clause of `_process_turn` is the cleanup wrapper applied in
`process_turn` on every exit of the try body.
-/

namespace MultimodalTranslator

/-! ### config.py -/

/-- The literal SUPPORTED_LANGUAGES dict of config.py:
display name mapped to ISO code. -/
def SUPPORTED_LANGUAGES : List (String × String) :=
  [("English", "en"), ("Hindi", "hi"), ("Kannada", "kn"), ("Tamil", "ta"),
   ("Telugu", "te"), ("Malayalam", "ml"), ("Marathi", "mr"), ("Gujarati", "gu"),
   ("Punjabi", "pa"), ("Bengali", "bn"), ("Urdu", "ur"),
   ("Arabic", "ar"), ("Chinese (Simplified)", "zh-cn"),
   ("Chinese (Traditional)", "zh-tw"),
   ("French", "fr"), ("German", "de"), ("Spanish", "es"), ("Portuguese", "pt"),
   ("Russian", "ru"), ("Italian", "it"), ("Japanese", "ja"), ("Korean", "ko"),
   ("Thai", "th"), ("Indonesian", "id"), ("Turkish", "tr"), ("Dutch", "nl"),
   ("Swedish", "sv"), ("Polish", "pl"), ("Czech", "cs"), ("Greek", "el"),
   ("Vietnamese", "vi"), ("Swahili", "sw"), ("Filipino", "tl"),
   ("Romanian", "ro"), ("Hungarian", "hu"), ("Finnish", "fi"),
   ("Danish", "da"), ("Norwegian", "no"), ("Hebrew", "he"),
   ("Persian (Farsi)", "fa")]

/-! ### languages.py -/

/-- languages.get_all_languages: the list of display names. -/
def get_all_languages : List String :=
  SUPPORTED_LANGUAGES.map Prod.fst

/-- languages.lang_code_for_translation:
SUPPORTED_LANGUAGES.get(lang_name, "en"). -/
def lang_code_for_translation (lang_name : String) : String :=
  (SUPPORTED_LANGUAGES.lookup lang_name).getD "en"

/-! ### Python string primitives

Python str.strip() and str.lower() are modelled as executable functions
on the character list underlying a String (Lean's own String.trim is
not used because the embedding must evaluate inside the kernel). -/

/-- Python str.strip(): drop whitespace from both ends. -/
def py_strip (s : String) : String :=
  String.mk (((s.data.dropWhile Char.isWhitespace).reverse.dropWhile
    Char.isWhitespace).reverse)

/-- Python str.lower(). -/
def py_lower (s : String) : String :=
  String.mk (s.data.map Char.toLower)

/-! ### translate.py -/

/-- Outcome of one call to GoogleTranslator(...).translate(text):
the service either returned a value (possibly Python None) or raised. -/
inductive TransOutcome where
  | returns (translated : Option String)
  | raises (msg : String)
deriving DecidableEq

/-- translate._normalize_code.  The argument type str | None is
modelled as Option String; Python `if not code` is true for both
None and the empty string. -/
def normalize_code (code : Option String) : String :=
  match code with
  | none => ""
  | some c =>
    if c = "" then ""
    else
      let c := py_strip c
      let low := py_lower c
      if low = "zh-cn" then "zh-CN"
      else if low = "zh-tw" then "zh-TW"
      else if low = "chinese (simplified)" ∨ low = "simplified chinese" then
        "chinese (simplified)"
      else if low = "chinese (traditional)" ∨ low = "traditional chinese" then
        "chinese (traditional)"
      else c

/-- Result of translate.translate_text, instrumented with whether the
remote Translation Service was invoked (GoogleTranslator constructed
and .translate called) and whether the except-branch warning
(`print("[TRANSLATE ERROR] ...")`) was emitted. -/
structure TranslateRun where
  result : String
  serviceCalled : Bool
  warned : Bool
deriving DecidableEq

/-- translate.translate_text.  `translator` is the external
GoogleTranslator oracle, applied to (text, source code, target code). -/
def translate_text (translator : String → String → String → TransOutcome)
    (text src_lang_name tgt_lang_name : String) : TranslateRun :=
  if text = "" then { result := "", serviceCalled := false, warned := false }
  else
    let text := py_strip text
    if text = "" then { result := "", serviceCalled := false, warned := false }
    else
      let src_code := lang_code_for_translation src_lang_name
      let tgt_code := lang_code_for_translation tgt_lang_name
      if src_code = tgt_code then
        { result := text, serviceCalled := false, warned := false }
      else
        let src_code := normalize_code (some src_code)
        let tgt_code := normalize_code (some tgt_code)
        let src_code := if src_code = "" then "auto" else src_code
        let tgt_code := if tgt_code = "" then "en" else tgt_code
        match translator text src_code tgt_code with
        | TransOutcome.returns translated =>
          { result := match translated with
              | some t => if t = "" then "" else t
              | none => "",
            serviceCalled := true, warned := false }
        | TransOutcome.raises _ =>
          { result := text, serviceCalled := true, warned := true }

/-! ### temp-file model (tempfile.NamedTemporaryFile / os) -/

/-- File system state: existing files (path, byte contents) plus the
counter tempfile uses to mint fresh names. -/
structure FS where
  files : List (String × List Nat)
  counter : Nat
deriving DecidableEq

/-- The fresh path NamedTemporaryFile would produce next. -/
def freshName (fs : FS) (suffix : String) : String :=
  "tmp" ++ toString fs.counter ++ suffix

/-- NamedTemporaryFile(delete=False, suffix=...) followed by writing
`content`: a fresh path now holding `content`.  The new entry is put in
front so that a lookup sees the most recent write. -/
def createTempFile (fs : FS) (suffix : String) (content : List Nat) :
    FS × String :=
  let path := freshName fs suffix
  (⟨(path, content) :: fs.files, fs.counter + 1⟩, path)

/-- os.path.exists. -/
def fileExists (fs : FS) (path : String) : Bool :=
  (fs.files.lookup path).isSome

/-! ### tts.py -/

/-- tts.cleanup_temp_file: safely delete a temporary file.  Python
`if not path` is true for None and for the empty string; os.remove
deletes the file (the swallowed OSError branch leaves fs unchanged
exactly when the file does not exist, which lookup/filter models). -/
def cleanup_temp_file (fs : FS) (path : Option String) : FS :=
  match path with
  | none => fs
  | some p =>
    if p = "" then fs
    else { fs with files := fs.files.filter (fun e => e.1 != p) }

/-- tts._tts_code_for_language; `none` models a non-string argument. -/
def tts_code_for_language (lang_name : Option String) : String :=
  match lang_name with
  | none => "en"
  | some n =>
    let code := py_lower (py_strip (lang_code_for_translation n))
    if code = "" then "en" else code

/-- Outcome of the gTTS part of tts.text_to_speech_file: the synthesis
either produced mp3 bytes, or raised while constructing the gTTS object
(before the temp file exists), or raised inside .save (after the temp
file was created, leaving it empty). -/
inductive TtsOutcome where
  | ok (content : List Nat)
  | raisesInit
  | raisesSave
deriving DecidableEq

/-- tts.text_to_speech_file.  Returns the updated file system and the
path of the generated MP3, or none if TTS failed. -/
def text_to_speech_file (tts : String → String → TtsOutcome) (fs : FS)
    (text language_name : String) : FS × Option String :=
  if text = "" ∨ py_strip text = "" then (fs, none)
  else
    let tts_lang := tts_code_for_language (some language_name)
    match tts text tts_lang with
    | TtsOutcome.raisesInit => (fs, none)
    | TtsOutcome.raisesSave =>
      let ft := createTempFile fs ".mp3" []
      (ft.1, none)
    | TtsOutcome.ok content =>
      let ft := createTempFile fs ".mp3" content
      if content.length > 0 then (ft.1, some ft.2)
      else (ft.1, none)

/-! ### stt.py -/

/-- stt._stt_code_for_language; `none` models a non-string argument. -/
def stt_code_for_language (lang_name : Option String) : String :=
  match lang_name with
  | none => "en-US"
  | some n =>
    let code := py_lower (py_strip (lang_code_for_translation n))
    if code = "" then "en-US" else code

/-- Outcome of recognizer.recognize_google (together with reading the
audio file): recognized text, sr.UnknownValueError, sr.RequestError, or
any other exception. -/
inductive SttOutcome where
  | ok (text : String)
  | unknownValue
  | requestError (msg : String)
  | otherError (msg : String)
deriving DecidableEq

/-- stt.speech_to_text.  `recognize` is the recognizer oracle applied
to the audio file contents and the language code.  A missing or
unreadable audio file raises inside the try block, which the function
catches, returning "". -/
def speech_to_text (recognize : List Nat → String → SttOutcome) (fs : FS)
    (audio_path : String) (language_name : Option String) : String :=
  let stt_lang := stt_code_for_language language_name
  match fs.files.lookup audio_path with
  | none => ""
  | some content =>
    match recognize content stt_lang with
    | SttOutcome.ok text => if text = "" then "" else text
    | SttOutcome.unknownValue => ""
    | SttOutcome.requestError _ => ""
    | SttOutcome.otherError _ => ""

/-! ### conversation.py: conversation history and export -/

/-- One entry of st.session_state.conv_history, as appended by
conversation._append_message. -/
structure Turn where
  speaker : String
  src_lang : String
  tgt_lang : String
  original : String
  translated : String
deriving DecidableEq

/-- conversation._append_message: append one dict to conv_history. -/
def append_message (history : List Turn)
    (speaker src_lang tgt_lang original_text translated_text : String) :
    List Turn :=
  history ++ [{ speaker := speaker, src_lang := src_lang,
                tgt_lang := tgt_lang, original := original_text,
                translated := translated_text }]

/-- The three multi_cell text blocks conversation._download_history_pdf_button
writes for one history entry. -/
def render_turn_pdf (msg : Turn) : List String :=
  [msg.speaker ++ " (" ++ msg.src_lang ++ " ‚Üí " ++ msg.tgt_lang ++ ")",
   "Spoken: " ++ msg.original,
   "Translated: " ++ msg.translated]

/-- The for-loop of _download_history_pdf_button over the history. -/
def render_history_pdf : List Turn → List String
  | [] => []
  | msg :: rest => render_turn_pdf msg ++ render_history_pdf rest

/-- conversation._download_history_pdf_button, as the document it
offers for download: the title cell followed by the per-turn cells in
insertion order.  If the history is empty the function returns early
and no document is produced. -/
def download_history_pdf (history : List Turn) : Option (List String) :=
  if history.isEmpty then none
  else some ("Doctor‚ÄìPatient Conversation" :: render_history_pdf history)

/-! ### conversation.py: the turn pipeline -/

/-- The audio_data argument of _process_turn (what medical_mic returned),
by the shape the normalisation code distinguishes: raw bytes/bytearray,
a (bytes, sample_rate) tuple, an object with .read(), something bytes()
accepts, or something bytes() raises on.  Python None is modelled by
Option at the call site. -/
inductive AudioData where
  | raw (b : List Nat)
  | tup (b : List Nat)
  | readable (b : List Nat)
  | convertible (b : List Nat)
  | unconvertible
deriving DecidableEq

/-- The audio normalisation block of _process_turn (tuple unpacking,
.read(), bytes(...) conversion); none means the bytes() conversion
raised and the function showed an error and returned. -/
def normalize_audio : AudioData → Option (List Nat)
  | AudioData.raw b => some b
  | AudioData.tup b => some b
  | AudioData.readable b => some b
  | AudioData.convertible b => some b
  | AudioData.unconvertible => none

/-- The three external service oracles consumed by one turn. -/
structure Services where
  recognize : List Nat → String → SttOutcome
  translate : String → String → String → TransOutcome
  tts : String → String → TtsOutcome

/-- Where, if anywhere, an exception escapes a step inside the try
block of _process_turn (the service wrappers themselves catch their own
exceptions; these points model exceptions from the surrounding UI,
file-playback and append code).  The `finally` clause runs in every
case. -/
inductive ExcPoint where
  | noExc
  | duringStt
  | duringTranslate
  | duringAppend
  | duringTts
deriving DecidableEq

/-- Result of the try body of _process_turn (before the finally
clause), instrumented with which steps were entered. -/
structure BodyOut where
  history : List Turn
  fs : FS
  sttAttempted : Bool
  translateAttempted : Bool
  ttsAttempted : Bool
  errorMsg : Option String
  translationWarned : Bool
  played : Bool
  excPropagated : Bool
deriving DecidableEq

/-- Result of one _process_turn invocation, instrumented with the
temp WAV path created (if the invocation got that far), which pipeline
steps were entered, the st.error message shown, whether the translation
failure warning was printed, whether audio was played, and whether an
exception escaped the invocation. -/
structure TurnReport where
  history : List Turn
  fs : FS
  wavPath : Option String
  sttAttempted : Bool
  translateAttempted : Bool
  ttsAttempted : Bool
  errorMsg : Option String
  translationWarned : Bool
  played : Bool
  excPropagated : Bool
deriving DecidableEq

/-- The try block of _process_turn: speech-to-text, the empty-
transcription early return, translation, history append, and TTS with
playback (including cleanup of the generated MP3 after playback). -/
def process_turn_try_body (svc : Services) (exc : ExcPoint)
    (role src_lang tgt_lang : String) (history : List Turn) (fs1 : FS)
    (wav_path : String) : BodyOut :=
  if exc = ExcPoint.duringStt then
    { history := history, fs := fs1, sttAttempted := true,
      translateAttempted := false, ttsAttempted := false, errorMsg := none,
      translationWarned := false, played := false, excPropagated := true }
  else
    let original_text := speech_to_text svc.recognize fs1 wav_path (some src_lang)
    if original_text = "" ∨ py_strip original_text = "" then
      { history := history, fs := fs1, sttAttempted := true,
        translateAttempted := false, ttsAttempted := false,
        errorMsg := some ("Could not recognize " ++ py_lower role ++
          " speech. Please try again."),
        translationWarned := false, played := false, excPropagated := false }
    else if exc = ExcPoint.duringTranslate then
      { history := history, fs := fs1, sttAttempted := true,
        translateAttempted := true, ttsAttempted := false, errorMsg := none,
        translationWarned := false, played := false, excPropagated := true }
    else
      let tr := translate_text svc.translate original_text src_lang tgt_lang
      if exc = ExcPoint.duringAppend then
        { history := history, fs := fs1, sttAttempted := true,
          translateAttempted := true, ttsAttempted := false, errorMsg := none,
          translationWarned := tr.warned, played := false,
          excPropagated := true }
      else
        let history2 :=
          append_message history role src_lang tgt_lang original_text tr.result
        if tr.result ≠ "" ∧ py_strip tr.result ≠ "" then
          let ft := text_to_speech_file svc.tts fs1 tr.result tgt_lang
          match ft.2 with
          | some p =>
            if exc = ExcPoint.duringTts then
              { history := history2, fs := ft.1, sttAttempted := true,
                translateAttempted := true, ttsAttempted := true,
                errorMsg := none, translationWarned := tr.warned,
                played := false, excPropagated := true }
            else
              { history := history2, fs := cleanup_temp_file ft.1 (some p),
                sttAttempted := true, translateAttempted := true,
                ttsAttempted := true, errorMsg := none,
                translationWarned := tr.warned, played := true,
                excPropagated := false }
          | none =>
            { history := history2, fs := ft.1, sttAttempted := true,
              translateAttempted := true, ttsAttempted := true,
              errorMsg := none, translationWarned := tr.warned,
              played := false, excPropagated := false }
        else
          { history := history2, fs := fs1, sttAttempted := true,
            translateAttempted := true, ttsAttempted := false,
            errorMsg := none, translationWarned := tr.warned,
            played := false, excPropagated := false }

/-- conversation._process_turn: validate the audio argument, save it to
a fresh temp WAV file, run the try body, and in every case run the
finally clause cleanup_temp_file(wav_path). -/
def process_turn (svc : Services) (exc : ExcPoint) (role : String)
    (audio_data : Option AudioData) (src_lang tgt_lang : String)
    (history : List Turn) (fs : FS) : TurnReport :=
  match audio_data with
  | none =>
    { history := history, fs := fs, wavPath := none, sttAttempted := false,
      translateAttempted := false, ttsAttempted := false,
      errorMsg := some ("Please record " ++ py_lower role ++ " audio first."),
      translationWarned := false, played := false, excPropagated := false }
  | some ad =>
    match normalize_audio ad with
    | none =>
      { history := history, fs := fs, wavPath := none, sttAttempted := false,
        translateAttempted := false, ttsAttempted := false,
        errorMsg := some "Internal error: could not convert recorded audio.",
        translationWarned := false, played := false, excPropagated := false }
    | some audio_bytes =>
      let fw := createTempFile fs ".wav" audio_bytes
      let b := process_turn_try_body svc exc role src_lang tgt_lang history
        fw.1 fw.2
      { history := b.history, fs := cleanup_temp_file b.fs (some fw.2),
        wavPath := some fw.2, sttAttempted := b.sttAttempted,
        translateAttempted := b.translateAttempted,
        ttsAttempted := b.ttsAttempted, errorMsg := b.errorMsg,
        translationWarned := b.translationWarned, played := b.played,
        excPropagated := b.excPropagated }

/-- The text _process_turn obtains from speech_to_text for audio
recorded as `audio_bytes`, starting from file system `fs`: the WAV temp
file is created first and then read back by the recognizer. -/
def recognized_text (svc : Services) (fs : FS) (audio_bytes : List Nat)
    (src_lang : String) : String :=
  let fw := createTempFile fs ".wav" audio_bytes
  speech_to_text svc.recognize fw.1 fw.2 (some src_lang)

/-! ### concrete oracles used to exercise the pipeline -/

/-- A recognizer that always understands the audio. -/
def demoRecognize : List Nat → String → SttOutcome :=
  fun _ _ => SttOutcome.ok "hello doctor"

/-- A translation service that always answers. -/
def demoTranslate : String → String → String → TransOutcome :=
  fun _ _ _ => TransOutcome.returns (some "namaste")

/-- A TTS engine that always produces audio bytes. -/
def demoTts : String → String → TtsOutcome :=
  fun _ _ => TtsOutcome.ok [7, 7]

/-- Services where every external call succeeds. -/
def demoServices : Services :=
  { recognize := demoRecognize, translate := demoTranslate, tts := demoTts }

/-- A recognizer whose try block raises (e.g. unreadable audio). -/
def silentRecognize : List Nat → String → SttOutcome :=
  fun _ _ => SttOutcome.otherError "bad wav"

/-- Services whose recognizer never understands anything. -/
def silentServices : Services :=
  { recognize := silentRecognize, translate := demoTranslate, tts := demoTts }

/-- A translation service that always raises a transport error. -/
def failTranslate : String → String → String → TransOutcome :=
  fun _ _ _ => TransOutcome.raises "network down"

/-- Services whose translation service always raises. -/
def failTranslateServices : Services :=
  { recognize := demoRecognize, translate := failTranslate, tts := demoTts }

/-- A TTS engine that always raises inside .save. -/
def failTts : String → String → TtsOutcome :=
  fun _ _ => TtsOutcome.raisesSave

/-- Services whose TTS engine always fails. -/
def failTtsServices : Services :=
  { recognize := demoRecognize, translate := demoTranslate, tts := failTts }

/-! ### Helper lemmas -/

theorem lookup_filter_ne (l : List (String × List Nat)) (p : String) :
    (l.filter (fun e => e.1 != p)).lookup p = none := by
  induction l with
  | nil => rfl
  | cons a t ih =>
    by_cases h : a.1 = p
    · simp [List.filter_cons, h, ih]
    · have hb : (p == a.1) = false := by
        simp [Ne.symm h]
      simp [List.filter_cons, bne_iff_ne, h, List.lookup, hb, ih]

theorem fileExists_cleanup_self (fs : FS) (p : String) (hp : p ≠ "") :
    fileExists (cleanup_temp_file fs (some p)) p = false := by
  simp [cleanup_temp_file, hp, fileExists, lookup_filter_ne]

theorem freshName_ne_empty (fs : FS) (suffix : String) :
    freshName fs suffix ≠ "" := by
  intro h
  have hl := congrArg String.length h
  rw [freshName, String.length_append, String.length_append] at hl
  have h3 : "tmp".length = 3 := rfl
  have h0 : "".length = 0 := rfl
  omega

/-- In every run that created the temp WAV file, the finally clause has
removed it from the final file system. -/
theorem wav_removed_after_run (svc : Services) (exc : ExcPoint) (role : String)
    (audio_data : Option AudioData) (src_lang tgt_lang : String)
    (history : List Turn) (fs : FS) (p : String)
    (h : (process_turn svc exc role audio_data src_lang tgt_lang history
        fs).wavPath = some p) :
    fileExists (process_turn svc exc role audio_data src_lang tgt_lang history
        fs).fs p = false := by
  match audio_data with
  | none => simp [process_turn] at h
  | some ad =>
    cases hna : normalize_audio ad with
    | none => simp [process_turn, hna] at h
    | some audio_bytes =>
      have hp : p = (createTempFile fs ".wav" audio_bytes).2 := by
        simp [process_turn, hna] at h
        exact h.symm
      simp only [process_turn, hna]
      rw [hp]
      exact fileExists_cleanup_self _ _ (freshName_ne_empty fs ".wav")

/-- When no exception fires before the history append and the
transcription is non-empty after stripping, the try body appends
exactly the turn built from the recognized and translated text,
independent of how the TTS step goes. -/
theorem try_body_history_append (svc : Services) (exc : ExcPoint)
    (role src_lang tgt_lang : String) (history : List Turn) (fs1 : FS)
    (wav_path : String)
    (hexc : exc = ExcPoint.noExc ∨ exc = ExcPoint.duringTts)
    (hot : py_strip (speech_to_text svc.recognize fs1 wav_path
      (some src_lang)) ≠ "") :
    (process_turn_try_body svc exc role src_lang tgt_lang history fs1
        wav_path).history
      = history ++
        [{ speaker := role, src_lang := src_lang, tgt_lang := tgt_lang,
           original := speech_to_text svc.recognize fs1 wav_path
             (some src_lang),
           translated := (translate_text svc.translate
             (speech_to_text svc.recognize fs1 wav_path (some src_lang))
             src_lang tgt_lang).result }] := by
  have h1 : ¬ exc = ExcPoint.duringStt := by
    rcases hexc with h | h <;> simp [h]
  have h2 : ¬ exc = ExcPoint.duringTranslate := by
    rcases hexc with h | h <;> simp [h]
  have h3 : ¬ exc = ExcPoint.duringAppend := by
    rcases hexc with h | h <;> simp [h]
  have hne : ¬ (speech_to_text svc.recognize fs1 wav_path (some src_lang) = ""
      ∨ py_strip (speech_to_text svc.recognize fs1 wav_path
          (some src_lang)) = "") := by
    rintro (h | h)
    · apply hot
      rw [h]
      rfl
    · exact hot h
  simp only [process_turn_try_body, if_neg h1, if_neg hne, if_neg h2,
    if_neg h3]
  split
  all_goals try split
  all_goals try split
  all_goals simp [append_message]

/-- process_turn-level version of try_body_history_append, phrased via
recognized_text. -/
theorem process_turn_history_append (svc : Services) (exc : ExcPoint)
    (role : String) (ad : AudioData) (audio_bytes : List Nat)
    (src_lang tgt_lang : String) (history : List Turn) (fs : FS)
    (hna : normalize_audio ad = some audio_bytes)
    (hexc : exc = ExcPoint.noExc ∨ exc = ExcPoint.duringTts)
    (hot : py_strip (recognized_text svc fs audio_bytes src_lang) ≠ "") :
    (process_turn svc exc role (some ad) src_lang tgt_lang history fs).history
      = history ++
        [{ speaker := role, src_lang := src_lang, tgt_lang := tgt_lang,
           original := recognized_text svc fs audio_bytes src_lang,
           translated := (translate_text svc.translate
             (recognized_text svc fs audio_bytes src_lang) src_lang
             tgt_lang).result }] := by
  simp only [process_turn, hna]
  simp only [recognized_text] at hot ⊢
  exact try_body_history_append svc exc role src_lang tgt_lang history _ _
    hexc hot

/-- If every TTS call fails, text_to_speech_file reports no artifact. -/
theorem text_to_speech_file_fail_none (tts : String → String → TtsOutcome)
    (fs : FS) (text language_name : String)
    (hf : ∀ t l, tts t l = TtsOutcome.raisesInit ∨
      tts t l = TtsOutcome.raisesSave) :
    (text_to_speech_file tts fs text language_name).2 = none := by
  simp only [text_to_speech_file]
  split
  · rfl
  · rcases hf text (tts_code_for_language (some language_name)) with h | h <;>
      simp [h]

/-- With a failing TTS engine and no extraneous exception, the try body
never plays audio. -/
theorem try_body_not_played_of_tts_fail (svc : Services)
    (role src_lang tgt_lang : String) (history : List Turn) (fs1 : FS)
    (wav_path : String)
    (hf : ∀ t l, svc.tts t l = TtsOutcome.raisesInit ∨
      svc.tts t l = TtsOutcome.raisesSave) :
    (process_turn_try_body svc ExcPoint.noExc role src_lang tgt_lang history
      fs1 wav_path).played = false := by
  simp only [process_turn_try_body,
    if_neg (show ¬ ExcPoint.noExc = ExcPoint.duringStt by decide),
    if_neg (show ¬ ExcPoint.noExc = ExcPoint.duringTranslate by decide),
    if_neg (show ¬ ExcPoint.noExc = ExcPoint.duringAppend by decide),
    if_neg (show ¬ ExcPoint.noExc = ExcPoint.duringTts by decide)]
  split
  · rfl
  · split
    · split
      · rename_i p heq
        rw [text_to_speech_file_fail_none svc.tts fs1 _ tgt_lang hf] at heq
        simp at heq
      · rfl
    · rfl

/-- The PDF body has three cells per turn. -/
theorem render_history_pdf_length (l : List Turn) :
    (render_history_pdf l).length = 3 * l.length := by
  induction l with
  | nil => rfl
  | cons t rest ih =>
    simp [render_history_pdf, render_turn_pdf, ih]
    ring

/-- The three cells of the i-th turn sit at positions 3i, 3i+1, 3i+2 of
the PDF body, in insertion order. -/
theorem render_history_pdf_getElem (l : List Turn) (i : Nat)
    (hi : i < l.length) :
    (render_history_pdf l)[3 * i]?
        = some ((l.get ⟨i, hi⟩).speaker ++ " (" ++ (l.get ⟨i, hi⟩).src_lang ++
          " ‚Üí " ++ (l.get ⟨i, hi⟩).tgt_lang ++ ")") ∧
      (render_history_pdf l)[3 * i + 1]?
        = some ("Spoken: " ++ (l.get ⟨i, hi⟩).original) ∧
      (render_history_pdf l)[3 * i + 2]?
        = some ("Translated: " ++ (l.get ⟨i, hi⟩).translated) := by
  induction l generalizing i with
  | nil => exact absurd hi (by simp)
  | cons t rest ih =>
    cases i with
    | zero =>
      refine ⟨?_, ?_, ?_⟩ <;>
        simp [render_history_pdf, render_turn_pdf, List.cons_append]
    | succ k =>
      have hk : k < rest.length := by
        simpa using hi
      obtain ⟨ha, hb, hc⟩ := ih k hk
      have hl : render_history_pdf (t :: rest)
          = (t.speaker ++ " (" ++ t.src_lang ++ " ‚Üí " ++ t.tgt_lang ++ ")")
            :: ("Spoken: " ++ t.original)
            :: ("Translated: " ++ t.translated)
            :: render_history_pdf rest := rfl
      refine ⟨?_, ?_, ?_⟩
      · rw [hl, show 3 * (k + 1) = (3 * k + 1 + 1) + 1 by ring,
          List.getElem?_cons_succ, List.getElem?_cons_succ,
          List.getElem?_cons_succ]
        simpa using ha
      · rw [hl, show 3 * (k + 1) + 1 = ((3 * k + 1) + 1 + 1) + 1 by ring,
          List.getElem?_cons_succ, List.getElem?_cons_succ,
          List.getElem?_cons_succ]
        simpa using hb
      · rw [hl, show 3 * (k + 1) + 2 = ((3 * k + 2) + 1 + 1) + 1 by ring,
          List.getElem?_cons_succ, List.getElem?_cons_succ,
          List.getElem?_cons_succ]
        simpa using hc

/-- When the two language names resolve to the same code, translate_text
returns the stripped text without calling the service. -/
theorem translate_text_same_code
    (translator : String → String → String → TransOutcome)
    (text src_lang_name tgt_lang_name : String)
    (h : lang_code_for_translation src_lang_name
      = lang_code_for_translation tgt_lang_name) :
    (translate_text translator text src_lang_name tgt_lang_name).result
        = py_strip text
      ∧ (translate_text translator text src_lang_name
          tgt_lang_name).serviceCalled = false := by
  by_cases h0 : text = ""
  · rw [h0]
    exact ⟨rfl, rfl⟩
  · by_cases h1 : py_strip text = ""
    · simp [translate_text, h0, h1]
    · simp [translate_text, h0, h1, h]

/-- When every call of the translation service raises, translate_text
returns the stripped text, and warns whenever it actually called the
service (non-empty stripped text, distinct codes). -/
theorem translate_text_raises_spec
    (translator : String → String → String → TransOutcome)
    (text src_lang_name tgt_lang_name : String)
    (hf : ∀ t s g, ∃ m, translator t s g = TransOutcome.raises m) :
    (translate_text translator text src_lang_name tgt_lang_name).result
        = py_strip text
      ∧ (py_strip text ≠ "" →
          lang_code_for_translation src_lang_name
              ≠ lang_code_for_translation tgt_lang_name →
          (translate_text translator text src_lang_name
            tgt_lang_name).warned = true) := by
  by_cases h0 : text = ""
  · rw [h0]
    exact ⟨rfl, fun hh _ => absurd rfl hh⟩
  · by_cases h1 : py_strip text = ""
    · constructor
      · simp [translate_text, h0, h1]
      · exact fun hh _ => absurd h1 hh
    · by_cases h2 : lang_code_for_translation src_lang_name
          = lang_code_for_translation tgt_lang_name
      · exact ⟨(translate_text_same_code translator text _ _ h2).1,
          fun _ hh => absurd h2 hh⟩
      · obtain ⟨m, hm⟩ := hf (py_strip text)
          (if normalize_code (some (lang_code_for_translation
              src_lang_name)) = "" then "auto"
            else normalize_code (some (lang_code_for_translation
              src_lang_name)))
          (if normalize_code (some (lang_code_for_translation
              tgt_lang_name)) = "" then "en"
            else normalize_code (some (lang_code_for_translation
              tgt_lang_name)))
        constructor
        · simp [translate_text, h0, h1, h2, hm]
        · intro _ _
          simp [translate_text, h0, h1, h2, hm]

/-- Every code stored in the language catalog is non-empty. -/
theorem lookup_values_ne_empty (l : List (String × String)) :
    (∀ e ∈ l, e.2 ≠ "") → ∀ s c, l.lookup s = some c → c ≠ "" := by
  induction l with
  | nil =>
    intro _ s c h
    simp [List.lookup] at h
  | cons a t ih =>
    intro hl s c h
    simp only [List.lookup] at h
    cases hba : (s == a.1) with
    | true =>
      rw [hba] at h
      simp only [Option.some.injEq] at h
      rw [← h]
      exact hl a (List.mem_cons_self a t)
    | false =>
      rw [hba] at h
      exact ih (fun e he => hl e (List.mem_cons_of_mem a he)) s c h

/-- The try body under an empty or all-whitespace transcription:
nothing is appended, translation and TTS are not entered, and the file
system is untouched by the body. -/
theorem try_body_empty_transcription (svc : Services) (exc : ExcPoint)
    (role src_lang tgt_lang : String) (history : List Turn) (fs1 : FS)
    (wav_path : String)
    (hot : py_strip (speech_to_text svc.recognize fs1 wav_path
      (some src_lang)) = "") :
    (process_turn_try_body svc exc role src_lang tgt_lang history fs1
        wav_path).history = history
      ∧ (process_turn_try_body svc exc role src_lang tgt_lang history fs1
          wav_path).translateAttempted = false
      ∧ (process_turn_try_body svc exc role src_lang tgt_lang history fs1
          wav_path).ttsAttempted = false := by
  simp only [process_turn_try_body]
  split
  · exact ⟨rfl, rfl, rfl⟩
  · rw [if_pos (Or.inr hot)]
    exact ⟨rfl, rfl, rfl⟩

/-! ### Claims -/

/-- Claim C1: for every invocation of the turn pipeline that reaches
the point where the recorded audio bytes have been written to a
temporary WAV file (wavPath = some p), that temporary file no longer
exists after the invocation returns, on every exit path — successful
turn, empty or whitespace transcription, and any exception raised by a
later step (transcription, translation, append, synthesis), as
quantified by ExcPoint. -/
theorem C1_temp_wav_always_deleted (svc : Services) (exc : ExcPoint)
    (role : String) (audio_data : Option AudioData)
    (src_lang tgt_lang : String) (history : List Turn) (fs : FS) (p : String)
    (h : (process_turn svc exc role audio_data src_lang tgt_lang history
      fs).wavPath = some p) :
    fileExists (process_turn svc exc role audio_data src_lang tgt_lang
      history fs).fs p = false :=
  wav_removed_after_run svc exc role audio_data src_lang tgt_lang history fs
    p h

/-- Witness for C1 at a concrete successful run. -/
theorem C1_temp_wav_always_deleted_witness :
    fileExists (process_turn demoServices ExcPoint.noExc "Doctor"
      (some (AudioData.raw [1])) "English" "Hindi" [] ⟨[], 0⟩).fs
      "tmp0.wav" = false :=
  C1_temp_wav_always_deleted demoServices ExcPoint.noExc "Doctor"
    (some (AudioData.raw [1])) "English" "Hindi" [] ⟨[], 0⟩ "tmp0.wav"
    (by decide)

/-- Claim C2: for every pipeline invocation with usable non-empty audio
whose transcription is non-empty (after stripping), exactly one Turn is
appended to the conversation log — the history becomes the old history
plus exactly one turn — and the append happens before synthesis: the
appended history is the same whatever the TTS oracle does (including an
exception during the playback step, ExcPoint.duringTts), so a synthesis
failure neither prevents nor duplicates the recorded Turn. -/
theorem C2_exactly_one_turn_appended (svc : Services) (exc : ExcPoint)
    (role : String) (ad : AudioData) (audio_bytes : List Nat)
    (src_lang tgt_lang : String) (history : List Turn) (fs : FS)
    (hna : normalize_audio ad = some audio_bytes)
    (_hnb : audio_bytes ≠ [])
    (hexc : exc = ExcPoint.noExc ∨ exc = ExcPoint.duringTts)
    (hot : py_strip (recognized_text svc fs audio_bytes src_lang) ≠ "") :
    (process_turn svc exc role (some ad) src_lang tgt_lang history fs).history
        = history ++
          [{ speaker := role, src_lang := src_lang, tgt_lang := tgt_lang,
             original := recognized_text svc fs audio_bytes src_lang,
             translated := (translate_text svc.translate
               (recognized_text svc fs audio_bytes src_lang) src_lang
               tgt_lang).result }]
      ∧ ∀ tts1 tts2 : String → String → TtsOutcome,
          (process_turn { svc with tts := tts1 } exc role (some ad) src_lang
              tgt_lang history fs).history
            = (process_turn { svc with tts := tts2 } exc role (some ad)
                src_lang tgt_lang history fs).history := by
  constructor
  · exact process_turn_history_append svc exc role ad audio_bytes src_lang
      tgt_lang history fs hna hexc hot
  · intro tts1 tts2
    rw [process_turn_history_append { svc with tts := tts1 } exc role ad
        audio_bytes src_lang tgt_lang history fs hna hexc hot,
      process_turn_history_append { svc with tts := tts2 } exc role ad
        audio_bytes src_lang tgt_lang history fs hna hexc hot]
    rfl

/-- Witness for C2 at a concrete run, with the turn written out and the
TTS-independence instantiated at a succeeding and a failing engine. -/
theorem C2_exactly_one_turn_appended_witness :
    (process_turn demoServices ExcPoint.noExc "Doctor"
        (some (AudioData.raw [1])) "English" "Hindi" [] ⟨[], 0⟩).history
        = [] ++
          [{ speaker := "Doctor", src_lang := "English", tgt_lang := "Hindi",
             original := recognized_text demoServices ⟨[], 0⟩ [1] "English",
             translated := (translate_text demoServices.translate
               (recognized_text demoServices ⟨[], 0⟩ [1] "English") "English"
               "Hindi").result }]
      ∧ (process_turn { demoServices with tts := demoTts } ExcPoint.noExc
            "Doctor" (some (AudioData.raw [1])) "English" "Hindi" []
            ⟨[], 0⟩).history
          = (process_turn { demoServices with tts := failTts } ExcPoint.noExc
              "Doctor" (some (AudioData.raw [1])) "English" "Hindi" []
              ⟨[], 0⟩).history := by
  have h := C2_exactly_one_turn_appended demoServices ExcPoint.noExc "Doctor"
    (AudioData.raw [1]) [1] "English" "Hindi" [] ⟨[], 0⟩ (by decide)
    (by decide) (Or.inl rfl) (by decide)
  exact ⟨h.1, h.2 demoTts failTts⟩

/-- Claim C3: for every pipeline invocation where the transcription is
empty or all-whitespace, the pipeline terminates at that step — zero
Turns are appended, translation and synthesis are not attempted, and
the temporary audio file is still deleted. -/
theorem C3_empty_transcription_terminates (svc : Services) (exc : ExcPoint)
    (role : String) (ad : AudioData) (audio_bytes : List Nat)
    (src_lang tgt_lang : String) (history : List Turn) (fs : FS)
    (hna : normalize_audio ad = some audio_bytes)
    (hot : py_strip (recognized_text svc fs audio_bytes src_lang) = "") :
    (process_turn svc exc role (some ad) src_lang tgt_lang history fs).history
        = history
      ∧ (process_turn svc exc role (some ad) src_lang tgt_lang history
          fs).translateAttempted = false
      ∧ (process_turn svc exc role (some ad) src_lang tgt_lang history
          fs).ttsAttempted = false
      ∧ ∀ p, (process_turn svc exc role (some ad) src_lang tgt_lang history
            fs).wavPath = some p →
          fileExists (process_turn svc exc role (some ad) src_lang tgt_lang
            history fs).fs p = false := by
  have hb := try_body_empty_transcription svc exc role src_lang tgt_lang
    history (createTempFile fs ".wav" audio_bytes).1
    (createTempFile fs ".wav" audio_bytes).2
    (by simpa [recognized_text] using hot)
  refine ⟨?_, ?_, ?_,
    fun p hp => wav_removed_after_run svc exc role (some ad) src_lang
      tgt_lang history fs p hp⟩
  · simp only [process_turn, hna]
    exact hb.1
  · simp only [process_turn, hna]
    exact hb.2.1
  · simp only [process_turn, hna]
    exact hb.2.2

/-- Witness for C3 at a concrete run whose recognizer understands
nothing. -/
theorem C3_empty_transcription_terminates_witness :
    (process_turn silentServices ExcPoint.noExc "Doctor"
        (some (AudioData.raw [1, 2])) "English" "Hindi" [] ⟨[], 0⟩).history
        = []
      ∧ (process_turn silentServices ExcPoint.noExc "Doctor"
          (some (AudioData.raw [1, 2])) "English" "Hindi" []
          ⟨[], 0⟩).translateAttempted = false
      ∧ (process_turn silentServices ExcPoint.noExc "Doctor"
          (some (AudioData.raw [1, 2])) "English" "Hindi" []
          ⟨[], 0⟩).ttsAttempted = false
      ∧ fileExists (process_turn silentServices ExcPoint.noExc "Doctor"
          (some (AudioData.raw [1, 2])) "English" "Hindi" [] ⟨[], 0⟩).fs
          "tmp0.wav" = false := by
  have h := C3_empty_transcription_terminates silentServices ExcPoint.noExc
    "Doctor" (AudioData.raw [1, 2]) [1, 2] "English" "Hindi" [] ⟨[], 0⟩
    (by decide) (by decide)
  exact ⟨h.1, h.2.1, h.2.2.1, h.2.2.2 "tmp0.wav" (by decide)⟩

/-- Counterexample to claim C4 as stated: on the input text " hi " with
source and target both "English" (same code), translate_text returns
the stripped text "hi", which is not the source text unchanged. -/
theorem C4_identity_counterexample :
    (translate_text demoTranslate " hi " "English" "English").result = "hi"
      ∧ "hi" ≠ " hi " := by decide

/-- Claim C4 (amended): when the source and target language names
resolve to the same language code, translate_text returns the source
text stripped of surrounding whitespace (hence unchanged whenever the
text carries no surrounding whitespace) and never calls the external
Translation Service; hence a pipeline invocation with source_language
equal to target_language appends a Turn whose translated_text is the
stripped source_text. -/
theorem C4_identity_amended :
    (∀ (translator : String → String → String → TransOutcome)
        (text src_lang_name tgt_lang_name : String),
      lang_code_for_translation src_lang_name
          = lang_code_for_translation tgt_lang_name →
      (translate_text translator text src_lang_name tgt_lang_name).result
          = py_strip text
        ∧ (translate_text translator text src_lang_name
            tgt_lang_name).serviceCalled = false)
      ∧ ∀ (svc : Services) (role : String) (ad : AudioData)
          (audio_bytes : List Nat) (lang : String) (history : List Turn)
          (fs : FS),
          normalize_audio ad = some audio_bytes →
          py_strip (recognized_text svc fs audio_bytes lang) ≠ "" →
          (process_turn svc ExcPoint.noExc role (some ad) lang lang history
              fs).history
            = history ++
              [{ speaker := role, src_lang := lang, tgt_lang := lang,
                 original := recognized_text svc fs audio_bytes lang,
                 translated := py_strip (recognized_text svc fs audio_bytes
                   lang) }] := by
  constructor
  · exact fun translator text s t h =>
      translate_text_same_code translator text s t h
  · intro svc role ad audio_bytes lang history fs hna hot
    rw [process_turn_history_append svc ExcPoint.noExc role ad audio_bytes
        lang lang history fs hna (Or.inl rfl) hot,
      (translate_text_same_code svc.translate
        (recognized_text svc fs audio_bytes lang) lang lang rfl).1]

/-- Witness for C4 (amended) at concrete inputs. -/
theorem C4_identity_amended_witness :
    ((translate_text demoTranslate "hello" "English" "English").result
        = py_strip "hello"
      ∧ (translate_text demoTranslate "hello" "English"
          "English").serviceCalled = false)
      ∧ (process_turn demoServices ExcPoint.noExc "Doctor"
          (some (AudioData.raw [1])) "English" "English" [] ⟨[], 0⟩).history
          = [] ++
            [{ speaker := "Doctor", src_lang := "English",
               tgt_lang := "English",
               original := recognized_text demoServices ⟨[], 0⟩ [1] "English",
               translated := py_strip (recognized_text demoServices ⟨[], 0⟩
                 [1] "English") }] :=
  ⟨C4_identity_amended.1 demoTranslate "hello" "English" "English" rfl,
   C4_identity_amended.2 demoServices "Doctor" (AudioData.raw [1]) [1]
     "English" [] ⟨[], 0⟩ (by decide) (by decide)⟩

/-- Counterexample to claim C5 as stated: with a translation service
that always raises, on input " hi " the function returns the stripped
text "hi", not the original text " hi ". -/
theorem C5_fallback_counterexample :
    (translate_text failTranslate " hi " "English" "Hindi").result = "hi"
      ∧ "hi" ≠ " hi " := by decide

/-- Claim C5 (amended): if the Translation Service raises, translate_text
does not propagate the error — it returns the original text stripped of
surrounding whitespace — and the pipeline invocation still appends a
Turn whose translated_text is the stripped source text, surfacing the
failure only as the non-fatal console warning. -/
theorem C5_translation_failure_fallback :
    (∀ (translator : String → String → String → TransOutcome)
        (text src_lang_name tgt_lang_name : String),
      (∀ t s g, ∃ m, translator t s g = TransOutcome.raises m) →
      (translate_text translator text src_lang_name tgt_lang_name).result
          = py_strip text)
      ∧ ∀ (svc : Services) (role : String) (ad : AudioData)
          (audio_bytes : List Nat) (src_lang tgt_lang : String)
          (history : List Turn) (fs : FS),
          (∀ t s g, ∃ m, svc.translate t s g = TransOutcome.raises m) →
          normalize_audio ad = some audio_bytes →
          py_strip (recognized_text svc fs audio_bytes src_lang) ≠ "" →
          (process_turn svc ExcPoint.noExc role (some ad) src_lang tgt_lang
              history fs).history
            = history ++
              [{ speaker := role, src_lang := src_lang, tgt_lang := tgt_lang,
                 original := recognized_text svc fs audio_bytes src_lang,
                 translated := py_strip (recognized_text svc fs audio_bytes
                   src_lang) }]
            ∧ (lang_code_for_translation src_lang
                  ≠ lang_code_for_translation tgt_lang →
                (translate_text svc.translate (recognized_text svc fs
                  audio_bytes src_lang) src_lang tgt_lang).warned = true) := by
  constructor
  · exact fun translator text s t hf =>
      (translate_text_raises_spec translator text s t hf).1
  · intro svc role ad audio_bytes src_lang tgt_lang history fs hf hna hot
    constructor
    · rw [process_turn_history_append svc ExcPoint.noExc role ad audio_bytes
          src_lang tgt_lang history fs hna (Or.inl rfl) hot,
        (translate_text_raises_spec svc.translate
          (recognized_text svc fs audio_bytes src_lang) src_lang tgt_lang
          hf).1]
    · exact fun hcodes =>
        (translate_text_raises_spec svc.translate
          (recognized_text svc fs audio_bytes src_lang) src_lang tgt_lang
          hf).2 hot hcodes

/-- Witness for C5 (amended) at a concrete failing translation
service. -/
theorem C5_translation_failure_fallback_witness :
    (translate_text failTranslate "hello doctor" "English" "Hindi").result
        = py_strip "hello doctor"
      ∧ ((process_turn failTranslateServices ExcPoint.noExc "Doctor"
            (some (AudioData.raw [1])) "English" "Hindi" [] ⟨[], 0⟩).history
            = [] ++
              [{ speaker := "Doctor", src_lang := "English",
                 tgt_lang := "Hindi",
                 original := recognized_text failTranslateServices ⟨[], 0⟩
                   [1] "English",
                 translated := py_strip (recognized_text failTranslateServices
                   ⟨[], 0⟩ [1] "English") }]
          ∧ (lang_code_for_translation "English"
                ≠ lang_code_for_translation "Hindi" →
              (translate_text failTranslateServices.translate
                (recognized_text failTranslateServices ⟨[], 0⟩ [1] "English")
                "English" "Hindi").warned = true)) :=
  ⟨C5_translation_failure_fallback.1 failTranslate "hello doctor" "English"
      "Hindi" (fun t s g => ⟨"network down", rfl⟩),
   C5_translation_failure_fallback.2 failTranslateServices "Doctor"
     (AudioData.raw [1]) [1] "English" "Hindi" [] ⟨[], 0⟩
     (fun t s g => ⟨"network down", rfl⟩) (by decide) (by decide)⟩

/-- Counterexample to claim C6 as stated: for an empty byte buffer the
invocation does not fail immediately with the invalid-input error and
does perform further steps — the temp WAV file is created and
transcription is attempted, and the error shown is the no-speech one. -/
theorem C6_invalid_input_counterexample :
    (process_turn silentServices ExcPoint.noExc "Doctor"
        (some (AudioData.raw [])) "English" "Hindi" [] ⟨[], 0⟩).sttAttempted
        = true
      ∧ (process_turn silentServices ExcPoint.noExc "Doctor"
          (some (AudioData.raw [])) "English" "Hindi" [] ⟨[], 0⟩).wavPath
          = some "tmp0.wav"
      ∧ (process_turn silentServices ExcPoint.noExc "Doctor"
          (some (AudioData.raw [])) "English" "Hindi" [] ⟨[], 0⟩).errorMsg
          = some "Could not recognize doctor speech. Please try again." := by
  decide

/-- Claim C6 (amended): for every pipeline invocation where the
supplied audio is absent (None), the invocation fails immediately with
the invalid-input error and performs no further steps — no temp file,
no transcription, no translation, no Turn appended, and no synthesis.
(An empty byte buffer, by contrast, passes validation and proceeds to
transcription.) -/
theorem C6_absent_audio_fails_immediately (svc : Services) (exc : ExcPoint)
    (role src_lang tgt_lang : String) (history : List Turn) (fs : FS) :
    (process_turn svc exc role none src_lang tgt_lang history fs).errorMsg
        = some ("Please record " ++ py_lower role ++ " audio first.")
      ∧ (process_turn svc exc role none src_lang tgt_lang history
          fs).sttAttempted = false
      ∧ (process_turn svc exc role none src_lang tgt_lang history
          fs).translateAttempted = false
      ∧ (process_turn svc exc role none src_lang tgt_lang history
          fs).ttsAttempted = false
      ∧ (process_turn svc exc role none src_lang tgt_lang history fs).history
          = history
      ∧ (process_turn svc exc role none src_lang tgt_lang history fs).fs = fs
      ∧ (process_turn svc exc role none src_lang tgt_lang history fs).wavPath
          = none :=
  ⟨rfl, rfl, rfl, rfl, rfl, rfl, rfl⟩

/-- Claim C7: language-code resolution is total — it is a total Lean
function, unknown names resolve to "en", and every resolved code is a
non-empty catalog code. -/
theorem C7_language_resolution_total (s : String) :
    (SUPPORTED_LANGUAGES.lookup s = none → lang_code_for_translation s = "en")
      ∧ lang_code_for_translation s ≠ "" := by
  constructor
  · intro h
    simp [lang_code_for_translation, h]
  · rw [lang_code_for_translation]
    cases hl : SUPPORTED_LANGUAGES.lookup s with
    | none => simp
    | some c =>
      simp only [Option.getD_some]
      exact lookup_values_ne_empty SUPPORTED_LANGUAGES (by decide) s c hl

/-- Witness for C7 at a display name absent from the catalog. -/
theorem C7_language_resolution_total_witness :
    lang_code_for_translation "Klingon" = "en"
      ∧ lang_code_for_translation "Klingon" ≠ "" :=
  ⟨(C7_language_resolution_total "Klingon").1 (by decide),
   (C7_language_resolution_total "Klingon").2⟩

/-- Claim C8: export is deterministic over log content and complete —
for an unchanged (non-empty) conversation log, the exported document is
the function of the log computed here, it contains one title cell plus
exactly three cells per turn, and the i-th turn's speaker, language
pair, spoken text and translated text appear at positions 1 + 3i,
1 + 3i + 1, 1 + 3i + 2, in insertion order; two calls on the same log
therefore produce identical per-turn content in the same order. -/
theorem C8_export_deterministic_and_complete (h : List Turn) (i : Nat)
    (hi : i < h.length) :
    ∃ doc, download_history_pdf h = some doc
      ∧ doc.length = 1 + 3 * h.length
      ∧ doc[1 + 3 * i]?
          = some ((h.get ⟨i, hi⟩).speaker ++ " (" ++
            (h.get ⟨i, hi⟩).src_lang ++ " ‚Üí " ++
            (h.get ⟨i, hi⟩).tgt_lang ++ ")")
      ∧ doc[1 + 3 * i + 1]? = some ("Spoken: " ++ (h.get ⟨i, hi⟩).original)
      ∧ doc[1 + 3 * i + 2]?
          = some ("Translated: " ++ (h.get ⟨i, hi⟩).translated) := by
  have hne : h.isEmpty = false := by
    cases h with
    | nil => simp at hi
    | cons a t => rfl
  obtain ⟨ha, hb, hc⟩ := render_history_pdf_getElem h i hi
  refine ⟨"Doctor‚ÄìPatient Conversation" :: render_history_pdf h, ?_, ?_,
    ?_, ?_, ?_⟩
  · simp [download_history_pdf, hne]
  · simp only [List.length_cons, render_history_pdf_length]
    omega
  · rw [show 1 + 3 * i = (3 * i) + 1 by ring, List.getElem?_cons_succ]
    exact ha
  · rw [show 1 + 3 * i + 1 = (3 * i + 1) + 1 by ring,
      List.getElem?_cons_succ]
    exact hb
  · rw [show 1 + 3 * i + 2 = (3 * i + 2) + 1 by ring,
      List.getElem?_cons_succ]
    exact hc

/-- Witness for C8 on a one-turn log. -/
theorem C8_export_deterministic_and_complete_witness :
    ∃ doc, download_history_pdf
        [{ speaker := "Doctor", src_lang := "English", tgt_lang := "Hindi",
           original := "hi there", translated := "namaste" }] = some doc
      ∧ doc.length = 1 + 3 * 1
      ∧ doc[1 + 3 * 0]? = some ("Doctor" ++ " (" ++ "English" ++ " ‚Üí " ++
          "Hindi" ++ ")")
      ∧ doc[1 + 3 * 0 + 1]? = some ("Spoken: " ++ "hi there")
      ∧ doc[1 + 3 * 0 + 2]? = some ("Translated: " ++ "namaste") :=
  C8_export_deterministic_and_complete
    [{ speaker := "Doctor", src_lang := "English", tgt_lang := "Hindi",
       original := "hi there", translated := "namaste" }] 0 (by decide)

/-- Claim C9: speech synthesis returns no artifact for empty or
whitespace-only text; a failing synthesis engine is non-fatal —
text_to_speech_file returns none rather than raising — and the pipeline
then merely omits audio playback while the already-appended Turn is
kept. -/
theorem C9_synthesis_nonfatal :
    (∀ (tts : String → String → TtsOutcome) (fs : FS) (text lang : String),
      py_strip text = "" → text_to_speech_file tts fs text lang = (fs, none))
      ∧ (∀ (tts : String → String → TtsOutcome) (fs : FS)
          (text lang : String),
        (∀ t l, tts t l = TtsOutcome.raisesInit ∨
          tts t l = TtsOutcome.raisesSave) →
        (text_to_speech_file tts fs text lang).2 = none)
      ∧ ∀ (svc : Services) (role : String) (ad : AudioData)
          (audio_bytes : List Nat) (src_lang tgt_lang : String)
          (history : List Turn) (fs : FS),
          (∀ t l, svc.tts t l = TtsOutcome.raisesInit ∨
            svc.tts t l = TtsOutcome.raisesSave) →
          normalize_audio ad = some audio_bytes →
          py_strip (recognized_text svc fs audio_bytes src_lang) ≠ "" →
          (process_turn svc ExcPoint.noExc role (some ad) src_lang tgt_lang
              history fs).played = false
            ∧ (process_turn svc ExcPoint.noExc role (some ad) src_lang
                tgt_lang history fs).history
              = history ++
                [{ speaker := role, src_lang := src_lang,
                   tgt_lang := tgt_lang,
                   original := recognized_text svc fs audio_bytes src_lang,
                   translated := (translate_text svc.translate
                     (recognized_text svc fs audio_bytes src_lang) src_lang
                     tgt_lang).result }] := by
  refine ⟨?_, ?_, ?_⟩
  · intro tts fs text lang h
    simp [text_to_speech_file, h]
  · exact fun tts fs text lang hf =>
      text_to_speech_file_fail_none tts fs text lang hf
  · intro svc role ad audio_bytes src_lang tgt_lang history fs hf hna hot
    constructor
    · simp only [process_turn, hna]
      exact try_body_not_played_of_tts_fail svc role src_lang tgt_lang
        history _ _ hf
    · exact process_turn_history_append svc ExcPoint.noExc role ad
        audio_bytes src_lang tgt_lang history fs hna (Or.inl rfl) hot

/-- Witness for C9 at concrete inputs: whitespace text, a failing
engine, and a full pipeline run with a failing engine. -/
theorem C9_synthesis_nonfatal_witness :
    text_to_speech_file failTts ⟨[], 0⟩ "   " "Hindi" = (⟨[], 0⟩, none)
      ∧ (text_to_speech_file failTts ⟨[], 5⟩ "namaste" "Hindi").2 = none
      ∧ ((process_turn failTtsServices ExcPoint.noExc "Doctor"
            (some (AudioData.raw [1])) "English" "Hindi" [] ⟨[], 0⟩).played
            = false
          ∧ (process_turn failTtsServices ExcPoint.noExc "Doctor"
              (some (AudioData.raw [1])) "English" "Hindi" []
              ⟨[], 0⟩).history
            = [] ++
              [{ speaker := "Doctor", src_lang := "English",
                 tgt_lang := "Hindi",
                 original := recognized_text failTtsServices ⟨[], 0⟩ [1]
                   "English",
                 translated := (translate_text failTtsServices.translate
                   (recognized_text failTtsServices ⟨[], 0⟩ [1] "English")
                   "English" "Hindi").result }]) :=
  ⟨C9_synthesis_nonfatal.1 failTts ⟨[], 0⟩ "   " "Hindi" (by decide),
   C9_synthesis_nonfatal.2.1 failTts ⟨[], 5⟩ "namaste" "Hindi"
     (fun t l => Or.inr rfl),
   C9_synthesis_nonfatal.2.2 failTtsServices "Doctor" (AudioData.raw [1])
     [1] "English" "Hindi" [] ⟨[], 0⟩ (fun t l => Or.inr rfl) (by decide)
     (by decide)⟩

/-- Claim C10: speech_to_text is a total function that never propagates
an exception — a non-string language name resolves to the code "en-US",
a missing/unreadable audio file yields "", and every non-ok recognizer
outcome (unknown value, request error, any other exception) yields
"". -/
theorem C10_speech_to_text_total :
    stt_code_for_language none = "en-US"
      ∧ (∀ (recognize : List Nat → String → SttOutcome) (fs : FS)
          (audio_path : String) (lang : Option String),
        fs.files.lookup audio_path = none →
        speech_to_text recognize fs audio_path lang = "")
      ∧ ∀ (recognize : List Nat → String → SttOutcome) (fs : FS)
          (audio_path : String) (lang : Option String) (content : List Nat),
          fs.files.lookup audio_path = some content →
          (∀ t, recognize content (stt_code_for_language lang)
            ≠ SttOutcome.ok t) →
          speech_to_text recognize fs audio_path lang = "" := by
  refine ⟨rfl, ?_, ?_⟩
  · intro recognize fs audio_path lang h
    simp [speech_to_text, h]
  · intro recognize fs audio_path lang content h hnok
    simp only [speech_to_text, h]
    cases hr : recognize content (stt_code_for_language lang) with
    | ok t => exact absurd hr (hnok t)
    | unknownValue => rfl
    | requestError m => rfl
    | otherError m => rfl

/-- Witness for C10: a missing file and a recognizer that raises. -/
theorem C10_speech_to_text_total_witness :
    stt_code_for_language none = "en-US"
      ∧ speech_to_text demoRecognize ⟨[], 0⟩ "missing.wav" (some "English")
          = ""
      ∧ speech_to_text silentRecognize ⟨[("a.wav", [1])], 1⟩ "a.wav"
          (some "English") = "" :=
  ⟨C10_speech_to_text_total.1,
   C10_speech_to_text_total.2.1 demoRecognize ⟨[], 0⟩ "missing.wav"
     (some "English") (by decide),
   C10_speech_to_text_total.2.2 silentRecognize ⟨[("a.wav", [1])], 1⟩
     "a.wav" (some "English") [1] (by decide)
     (fun t ht => by simp [silentRecognize] at ht)⟩

end MultimodalTranslator
